import Mathlib

/-!
Shallow embedding of `src/c/src/socket_binder.c`.

The program is a single linear sequence of system calls.  We model the
outcome of every fallible call by an oracle (`World`); running the program
against a `World` deterministically produces a `Run`: the ordered trace of
system-call events, the single diagnostic line written by `err(3)` (if any),
the surviving filesystem entries created by the program, and the exit code.
Machine integers returned by calls (file descriptors, `snprintf` results)
are modelled as `Int`.
-/

/-- Linux constant `AF_UNIX` (= 1). -/
def AF_UNIX : Nat := 1

/-- Linux constant `SOCK_STREAM` (= 1). -/
def SOCK_STREAM : Nat := 1

/-- Linux constant `SOL_SOCKET` (= 1). -/
def SOL_SOCKET : Nat := 1

/-- Linux constant `SCM_RIGHTS` (= 1). -/
def SCM_RIGHTS : Nat := 1

/-- Size of the `sun_path` field of `struct sockaddr_un` on Linux. -/
def sunPathSize : Nat := 108

/-- Flags that can be passed to `open(2)` in this program. -/
inductive OpenFlag where
  | O_DIRECTORY
  | O_CLOEXEC
  | O_NOFOLLOW
deriving DecidableEq, Repr

/-- Flags that can be passed to `accept4(2)` in this program. -/
inductive AcceptFlag where
  | SOCK_CLOEXEC
  | SOCK_NONBLOCK
deriving DecidableEq, Repr

/-- The flag set the source passes to `open` for the directory handle:
`open(dir, O_DIRECTORY|O_CLOEXEC)`. -/
def dirOpenFlags : List OpenFlag := [OpenFlag.O_DIRECTORY, OpenFlag.O_CLOEXEC]

/-- `struct sockaddr_un`: an address family plus the (NUL-truncated)
`sun_path` buffer contents. -/
structure SockaddrUn where
  sun_family : Nat
  sun_path : String
deriving DecidableEq, Repr

/-- One control-message block (`struct cmsghdr` plus its data), as filled in
by the source: level, type, and the file descriptors carried in the data. -/
structure Cmsg where
  cmsg_level : Nat
  cmsg_type : Nat
  fds : List Int
deriving DecidableEq, Repr

/-- The parts of `struct msghdr` the source fills in: the ordinary payload
bytes gathered from the iovec array, the iovec lengths, and the control
blocks. -/
structure Msghdr where
  iovLens : List Nat
  payload : List Nat
  control : List Cmsg
deriving DecidableEq, Repr

/-- The message built by `main` around `sendmsg`: one iovec of one byte
(`waste_data = 0`) and one `SCM_RIGHTS` control block carrying exactly one
descriptor, the data socket. -/
def handoffMsg (datasock : Int) : Msghdr :=
  { iovLens := [1]
  , payload := [0]
  , control := [{ cmsg_level := SOL_SOCKET, cmsg_type := SCM_RIGHTS, fds := [datasock] }] }

/-- Trace events: one per system call the program issues.  Results of
fallible calls are recorded in the event (an `Int` result, an `Option`, or a
success `Bool`). -/
inductive Ev where
  | mkdtemp : String → Option String → Ev
  | openat : String → List OpenFlag → Int → Ev
  | socket : Nat → Nat → Int → Ev
  | bind : Int → SockaddrUn → Bool → Ev
  | listen : Int → Nat → Bool → Ev
  | stdout : String → Ev
  | closeFd : Int → Bool → Ev
  | accept4 : Int → List AcceptFlag → Int → Ev
  | unlinkat : Int → String → Nat → Bool → Ev
  | sendmsg : Int → Msghdr → Bool → Ev
  | free : String → Ev
deriving DecidableEq, Repr

/-- The observable outcome of one execution: the ordered event trace, the
diagnostic line `err(3)` wrote to standard error (if the run failed), the
filesystem entries created by the program that still exist at exit, and the
process exit code. -/
structure Run where
  events : List Ev
  stderrLine : Option String
  fs : List String
  exitCode : Nat
deriving DecidableEq, Repr

/-- Oracle for the outcomes of one socket's `socket`/`bind`/`listen` calls
inside `listen_unix_socket`. -/
structure SockOracle where
  sockRes : Int
  bindOk : Bool
  listenOk : Bool
deriving DecidableEq, Repr

/-- Oracle for a whole execution: the environment and the outcome of every
fallible call, in program order. -/
structure World where
  xdg : Option String
  tmpdirEnv : Option String
  asprintfOk : Bool
  mkdtempRes : Option String
  openRes : Int
  dataO : SockOracle
  passO : SockOracle
  closeStdoutOk : Bool
  acceptRes : Int
  closePassOk : Bool
  unlinkOk : Bool
  sendmsgOk : Bool
  closeConnOk : Bool
  closeDataOk : Bool
  closeDirfdOk : Bool
deriving DecidableEq, Repr

/-- Truncation of a string to its first `n` characters (what a bounded
`snprintf` keeps in the buffer). -/
def strTake (s : String) (n : Nat) : String :=
  String.mk (s.data.take n)

/-- The full formatted string `"/proc/self/fd/%d/%s"` for `dirfd` and
`name`, before any truncation. -/
def bindPathFull (dirfd : Int) (name : String) : String :=
  "/proc/self/fd/" ++ toString dirfd ++ "/" ++ name

/-- Model of `snprintf(addr.sun_path, sizeof(addr.sun_path), "/proc/self/fd/%d/%s", dirfd, name)`:
the buffer keeps at most `sunPathSize - 1` characters (plus the terminating
NUL), and the return value is the length the full output would have had. -/
def snprintfSunPath (dirfd : Int) (name : String) : String × Int :=
  let full := bindPathFull dirfd name
  (strTake full (sunPathSize - 1), (full.length : Int))

/-- The state of the socket `listen_unix_socket` returns on success. -/
structure Socket where
  fd : Int
  family : Nat
  sockType : Nat
  boundAddr : Option SockaddrUn
  backlog : Option Nat
  accepted : List Int
deriving DecidableEq, Repr

/-- Model of `listen_unix_socket(dirfd, name)`.  Returns the events it
issued and either the diagnostic tag passed to `err(3)` or the resulting
socket.  Mirrors the source: build the address with `snprintf` (fatal only
when the return value is negative), `socket(AF_UNIX, SOCK_STREAM, 0)`,
`bind`, `listen(sockfd, 10)`. -/
def listen_unix_socket (dirfd : Int) (name : String) (o : SockOracle) :
    List Ev × Except String Socket :=
  let pr := snprintfSunPath dirfd name
  if pr.2 < 0 then ([], Except.error "snprintf")
  else
    let addr : SockaddrUn := { sun_family := AF_UNIX, sun_path := pr.1 }
    if o.sockRes < 0 then
      ([Ev.socket AF_UNIX SOCK_STREAM o.sockRes], Except.error "socket")
    else if o.bindOk = false then
      ([Ev.socket AF_UNIX SOCK_STREAM o.sockRes, Ev.bind o.sockRes addr false],
       Except.error "bind")
    else if o.listenOk = false then
      ([Ev.socket AF_UNIX SOCK_STREAM o.sockRes, Ev.bind o.sockRes addr true,
        Ev.listen o.sockRes 10 false],
       Except.error "listen")
    else
      ([Ev.socket AF_UNIX SOCK_STREAM o.sockRes, Ev.bind o.sockRes addr true,
        Ev.listen o.sockRes 10 true],
       Except.ok { fd := o.sockRes, family := AF_UNIX, sockType := SOCK_STREAM
                 , boundAddr := some addr, backlog := some 10, accepted := [] })

/-- Model of `make_private_dir()`: resolve the base directory from
`XDG_RUNTIME_DIR`, else `TMPDIR`, else `"/tmp"`; `asprintf` the template
`"<base>/XXXXXX"`; `mkdtemp` it.  Returns the events and either the
diagnostic tag or the directory path. -/
def make_private_dir (w : World) : List Ev × Except String String :=
  let tmpdir := w.xdg.getD (w.tmpdirEnv.getD "/tmp")
  if w.asprintfOk = false then ([], Except.error "asprintf")
  else
    let template := tmpdir ++ "/XXXXXX"
    match w.mkdtempRes with
    | none => ([Ev.mkdtemp template none], Except.error "mkdtemp")
    | some dirname => ([Ev.mkdtemp template (some dirname)], Except.ok dirname)

/-- Model of `main`.  A successful `bind` through
`"/proc/self/fd/<dirfd>/<name>"` creates the filesystem entry
`<dir>/<name>` (the descriptor-qualified path resolves to the directory the
handle was opened on); `mkdtemp` creates `<dir>`; `unlinkat(dirfd, "pass", 0)`
removes `<dir>/pass`.  `err(3)` terminates the process with exit status 1
after writing its diagnostic line; the diagnostic strings are exactly the
format strings the source passes, including the `sendmsg` context and the
copy-pasted `"close(connsock)"` tags on the last two close checks.
(Named `socket_binder_main` because Lean reserves `main`.) -/
def socket_binder_main (w : World) : Run :=
  match make_private_dir w with
  | (evs, Except.error m) => { events := evs, stderrLine := some m, fs := [], exitCode := 1 }
  | (evs, Except.ok dir) =>
    let fs0 := [dir]
    if w.openRes < 0 then
      { events := evs ++ [Ev.openat dir dirOpenFlags w.openRes]
      , stderrLine := some "open", fs := fs0, exitCode := 1 }
    else
      let dirfd := w.openRes
      let evs1 := evs ++ [Ev.openat dir dirOpenFlags dirfd]
      match listen_unix_socket dirfd "data" w.dataO with
      | (levs, Except.error m) =>
        { events := evs1 ++ levs, stderrLine := some m, fs := fs0, exitCode := 1 }
      | (levs, Except.ok dataSock) =>
        let fs1 := fs0 ++ [dir ++ "/data"]
        let evs2 := evs1 ++ levs ++ [Ev.stdout (dir ++ "/data\n")]
        match listen_unix_socket dirfd "pass" w.passO with
        | (pevs, Except.error m) =>
          { events := evs2 ++ pevs, stderrLine := some m, fs := fs1, exitCode := 1 }
        | (pevs, Except.ok passSock) =>
          let fs2 := fs1 ++ [dir ++ "/pass"]
          let evs3 := evs2 ++ pevs ++ [Ev.stdout (dir ++ "/pass\n"), Ev.stdout "done\n"]
          if w.closeStdoutOk = false then
            { events := evs3 ++ [Ev.closeFd 1 false]
            , stderrLine := some "close(1)", fs := fs2, exitCode := 1 }
          else
            let evs4 := evs3 ++ [Ev.closeFd 1 true]
            if w.acceptRes < 0 then
              { events := evs4 ++ [Ev.accept4 passSock.fd [AcceptFlag.SOCK_CLOEXEC] w.acceptRes]
              , stderrLine := some "accept4(passsock)", fs := fs2, exitCode := 1 }
            else
              let connsock := w.acceptRes
              let evs5 := evs4 ++ [Ev.accept4 passSock.fd [AcceptFlag.SOCK_CLOEXEC] connsock]
              if w.closePassOk = false then
                { events := evs5 ++ [Ev.closeFd passSock.fd false]
                , stderrLine := some "close(passsock)", fs := fs2, exitCode := 1 }
              else
                let evs6 := evs5 ++ [Ev.closeFd passSock.fd true]
                if w.unlinkOk = false then
                  { events := evs6 ++ [Ev.unlinkat dirfd "pass" 0 false]
                  , stderrLine := some "unlinkat", fs := fs2, exitCode := 1 }
                else
                  let fs3 := fs2.erase (dir ++ "/pass")
                  let evs7 := evs6 ++ [Ev.unlinkat dirfd "pass" 0 true]
                  let msg := handoffMsg dataSock.fd
                  if w.sendmsgOk = false then
                    { events := evs7 ++ [Ev.sendmsg connsock msg false]
                    , stderrLine := some ("sendmsg(connsock=" ++ toString connsock ++
                        ", \x7bmsg=\x7bdatasock=" ++ toString dataSock.fd ++ "\x7d\x7d)")
                    , fs := fs3, exitCode := 1 }
                  else
                    let evs8 := evs7 ++ [Ev.sendmsg connsock msg true]
                    if w.closeConnOk = false then
                      { events := evs8 ++ [Ev.closeFd connsock false]
                      , stderrLine := some "close(connsock)", fs := fs3, exitCode := 1 }
                    else
                      let evs9 := evs8 ++ [Ev.closeFd connsock true, Ev.free dir]
                      if w.closeDataOk = false then
                        { events := evs9 ++ [Ev.closeFd dataSock.fd false]
                        , stderrLine := some "close(connsock)", fs := fs3, exitCode := 1 }
                      else
                        let evs10 := evs9 ++ [Ev.closeFd dataSock.fd true]
                        if w.closeDirfdOk = false then
                          { events := evs10 ++ [Ev.closeFd dirfd false]
                          , stderrLine := some "close(connsock)", fs := fs3, exitCode := 1 }
                        else
                          { events := evs10 ++ [Ev.closeFd dirfd true]
                          , stderrLine := none, fs := fs3, exitCode := 0 }

/-- The ordinary-payload strings written to standard output, in order. -/
def stdoutOf (t : List Ev) : List String :=
  t.filterMap fun e => match e with
    | Ev.stdout s => some s
    | _ => none

/-- Whether an event is a `sendmsg` call. -/
def isSendmsgEv : Ev → Bool
  | Ev.sendmsg _ _ _ => true
  | _ => false

/-- Whether an event is an `unlinkat` call (the only removal call the
program makes; it calls no `rmdir`/`unlink`). -/
def isUnlinkEv : Ev → Bool
  | Ev.unlinkat _ _ _ _ => true
  | _ => false

/-- Whether an event is an `accept4` call. -/
def isAcceptEv : Ev → Bool
  | Ev.accept4 _ _ _ => true
  | _ => false

/-- The descriptors an event transfers out of the process via ancillary
data.  Only `sendmsg` control blocks carry descriptors. -/
def evSentFds : Ev → List Int
  | Ev.sendmsg _ m _ => (m.control.map Cmsg.fds).flatten
  | _ => []

/-- All descriptors the trace transfers out of the process. -/
def sentFds (t : List Ev) : List Int :=
  (t.map evSentFds).flatten

/-- Whether an event is a failed `socket`, `bind` or `listen` call. -/
def isBindStageFailure : Ev → Bool
  | Ev.socket _ _ r => r < 0
  | Ev.bind _ _ ok => !ok
  | Ev.listen _ _ ok => !ok
  | _ => false

/-- Every fallible call after `mkdtemp` succeeds (and every returned
descriptor is nonnegative, as the source's `< 0` checks require). -/
def Success (w : World) : Prop :=
  w.asprintfOk = true ∧ 0 ≤ w.openRes ∧
  0 ≤ w.dataO.sockRes ∧ w.dataO.bindOk = true ∧ w.dataO.listenOk = true ∧
  0 ≤ w.passO.sockRes ∧ w.passO.bindOk = true ∧ w.passO.listenOk = true ∧
  w.closeStdoutOk = true ∧ 0 ≤ w.acceptRes ∧ w.closePassOk = true ∧
  w.unlinkOk = true ∧ w.sendmsgOk = true ∧ w.closeConnOk = true ∧
  w.closeDataOk = true ∧ w.closeDirfdOk = true

/-- The event trace of a fully successful run. -/
def canonEvents (w : World) (dir : String) : List Ev :=
  [Ev.mkdtemp ((w.xdg.getD (w.tmpdirEnv.getD "/tmp")) ++ "/XXXXXX") (some dir),
   Ev.openat dir dirOpenFlags w.openRes,
   Ev.socket AF_UNIX SOCK_STREAM w.dataO.sockRes,
   Ev.bind w.dataO.sockRes { sun_family := AF_UNIX, sun_path := (snprintfSunPath w.openRes "data").1 } true,
   Ev.listen w.dataO.sockRes 10 true,
   Ev.stdout (dir ++ "/data\n"),
   Ev.socket AF_UNIX SOCK_STREAM w.passO.sockRes,
   Ev.bind w.passO.sockRes { sun_family := AF_UNIX, sun_path := (snprintfSunPath w.openRes "pass").1 } true,
   Ev.listen w.passO.sockRes 10 true,
   Ev.stdout (dir ++ "/pass\n"),
   Ev.stdout "done\n",
   Ev.closeFd 1 true,
   Ev.accept4 w.passO.sockRes [AcceptFlag.SOCK_CLOEXEC] w.acceptRes,
   Ev.closeFd w.passO.sockRes true,
   Ev.unlinkat w.openRes "pass" 0 true,
   Ev.sendmsg w.acceptRes (handoffMsg w.dataO.sockRes) true,
   Ev.closeFd w.acceptRes true,
   Ev.free dir,
   Ev.closeFd w.dataO.sockRes true,
   Ev.closeFd w.openRes true]

/-- A concrete fully-successful world: no environment overrides (base
directory `"/tmp"`), `mkdtemp` yields `"/tmp/ABC123"`, descriptors
3 (directory), 4 (data), 5 (pass), 6 (accepted connection). -/
def w0 : World :=
  { xdg := none, tmpdirEnv := none, asprintfOk := true
  , mkdtempRes := some "/tmp/ABC123", openRes := 3
  , dataO := { sockRes := 4, bindOk := true, listenOk := true }
  , passO := { sockRes := 5, bindOk := true, listenOk := true }
  , closeStdoutOk := true, acceptRes := 6, closePassOk := true
  , unlinkOk := true, sendmsgOk := true, closeConnOk := true
  , closeDataOk := true, closeDirfdOk := true }

/-- Like `w0`, but the `bind` call for the pass socket fails. -/
def w5 : World :=
  { w0 with passO := { sockRes := 5, bindOk := false, listenOk := true } }

/-- Like `w0`, but the final `close(datasock)` call fails. -/
def w6 : World :=
  { w0 with closeDataOk := false }

/-- A 100-character socket name, long enough that
`"/proc/self/fd/3/" ++ longName` overflows the `sun_path` buffer. -/
def longName : String := String.mk (List.replicate 100 'a')

theorem strTake_of_length_le (s : String) (n : Nat) (h : s.length ≤ n) :
    strTake s n = s := by
  cases s with
  | mk data =>
    simp only [strTake]
    exact congrArg String.mk (List.take_of_length_le h)

theorem strTake_length (s : String) (n : Nat) :
    (strTake s n).length = min n s.length := by
  cases s with
  | mk data => simp [strTake, String.length, List.length_take]

theorem strTake_eq_self_iff (s : String) (n : Nat) :
    strTake s n = s ↔ s.length ≤ n := by
  constructor
  · intro h
    have hlen := strTake_length s n
    rw [h] at hlen
    omega
  · exact strTake_of_length_le s n

theorem string_append_right_cancel {s a b : String} (h : s ++ a = s ++ b) : a = b := by
  have hd : (s ++ a).data = (s ++ b).data := by rw [h]
  rw [String.data_append, String.data_append] at hd
  have hd2 := List.append_cancel_left hd
  cases a; cases b; simp_all

theorem data_entry_ne_pass_entry (dir : String) : dir ++ "/data" ≠ dir ++ "/pass" := by
  intro h
  have := string_append_right_cancel h
  simp_all

theorem dir_ne_pass_entry (dir : String) : dir ≠ dir ++ "/pass" := by
  intro h
  have h2 := congrArg String.length h
  rw [String.length_append] at h2
  have h3 : ("/pass" : String).length = 5 := rfl
  omega

theorem data_line_ne_done (dir : String) : dir ++ "/data\n" ≠ "done\n" := by
  intro h
  have h2 := congrArg String.length h
  rw [String.length_append] at h2
  have h3 : ("/data\n" : String).length = 6 := rfl
  have h4 : ("done\n" : String).length = 5 := rfl
  omega

theorem pass_line_ne_done (dir : String) : dir ++ "/pass\n" ≠ "done\n" := by
  intro h
  have h2 := congrArg String.length h
  rw [String.length_append] at h2
  have h3 : ("/pass\n" : String).length = 6 := rfl
  have h4 : ("done\n" : String).length = 5 := rfl
  omega

theorem fs_erase_pass (dir : String) :
    ([dir, dir ++ "/data", dir ++ "/pass"]).erase (dir ++ "/pass") = [dir, dir ++ "/data"] := by
  simp [List.erase_cons, dir_ne_pass_entry dir, data_entry_ne_pass_entry dir]

theorem listen_unix_socket_ok (dirfd : Int) (name : String) (o : SockOracle)
    (hs : 0 ≤ o.sockRes) (hb : o.bindOk = true) (hl : o.listenOk = true) :
    listen_unix_socket dirfd name o =
      ([Ev.socket AF_UNIX SOCK_STREAM o.sockRes,
        Ev.bind o.sockRes
          { sun_family := AF_UNIX, sun_path := (snprintfSunPath dirfd name).1 } true,
        Ev.listen o.sockRes 10 true],
       Except.ok { fd := o.sockRes, family := AF_UNIX, sockType := SOCK_STREAM
                 , boundAddr :=
                     some { sun_family := AF_UNIX
                          , sun_path := (snprintfSunPath dirfd name).1 }
                 , backlog := some 10, accepted := [] }) := by
  have h1 : ¬ (snprintfSunPath dirfd name).2 < 0 := by
    simp [snprintfSunPath]
  have h2 : ¬ o.sockRes < 0 := not_lt.mpr hs
  simp [listen_unix_socket, h1, h2, hb, hl]

theorem run_success_trace (w : World) (dir : String) (hdir : w.mkdtempRes = some dir)
    (h : Success w) :
    socket_binder_main w =
      { events := canonEvents w dir, stderrLine := none
      , fs := [dir, dir ++ "/data"], exitCode := 0 } := by
  obtain ⟨h1, h2, h3, h4, h5, h6, h7, h8, h9, h10, h11, h12, h13, h14, h15, h16⟩ := h
  have hopen : ¬ w.openRes < 0 := not_lt.mpr h2
  have hacc : ¬ w.acceptRes < 0 := not_lt.mpr h10
  have herase := fs_erase_pass dir
  simp only [socket_binder_main, make_private_dir, hdir, h1, h9, h11, h12, h13, h14, h15, h16,
    hopen, hacc,
    listen_unix_socket_ok w.openRes "data" w.dataO h3 h4 h5,
    listen_unix_socket_ok w.openRes "pass" w.passO h6 h7 h8]
  simp [canonEvents, herase]

/-- Claim C8 (confirmed): for every directory handle and name whose
descriptor-qualified string fits in the `sun_path` buffer,
`listen_unix_socket` builds its bind address as the path
`"/proc/self/fd/<handle>/<name>"` through the process's own
open-file-descriptor table entry (not the directory's plain path string),
creates a stream socket in the local-domain address family, binds it to
that address, and listens with a fixed backlog of 10; on success the
returned socket is open, bound, and listening with no accepted connections
yet. -/
theorem listen_unix_socket_builds_fd_qualified_listener
    (dirfd : Int) (name : String) (o : SockOracle)
    (hfit : (bindPathFull dirfd name).length ≤ sunPathSize - 1)
    (hs : 0 ≤ o.sockRes) (hb : o.bindOk = true) (hl : o.listenOk = true) :
    bindPathFull dirfd name = "/proc/self/fd/" ++ toString dirfd ++ "/" ++ name ∧
    listen_unix_socket dirfd name o =
      ([Ev.socket AF_UNIX SOCK_STREAM o.sockRes,
        Ev.bind o.sockRes
          { sun_family := AF_UNIX, sun_path := bindPathFull dirfd name } true,
        Ev.listen o.sockRes 10 true],
       Except.ok { fd := o.sockRes, family := AF_UNIX, sockType := SOCK_STREAM
                 , boundAddr :=
                     some { sun_family := AF_UNIX, sun_path := bindPathFull dirfd name }
                 , backlog := some 10, accepted := [] }) := by
  have hpath : (snprintfSunPath dirfd name).1 = bindPathFull dirfd name := by
    simp only [snprintfSunPath]
    exact strTake_of_length_le _ _ hfit
  refine ⟨rfl, ?_⟩
  rw [listen_unix_socket_ok dirfd name o hs hb hl, hpath]

/-- Witness for C8 at `dirfd = 3`, `name = "data"`, descriptor 4. -/
theorem listen_unix_socket_builds_fd_qualified_listener_witness :
    bindPathFull 3 "data" = "/proc/self/fd/" ++ toString (3 : Int) ++ "/" ++ "data" ∧
    listen_unix_socket 3 "data" { sockRes := 4, bindOk := true, listenOk := true } =
      ([Ev.socket AF_UNIX SOCK_STREAM 4,
        Ev.bind 4 { sun_family := AF_UNIX, sun_path := bindPathFull 3 "data" } true,
        Ev.listen 4 10 true],
       Except.ok { fd := 4, family := AF_UNIX, sockType := SOCK_STREAM
                 , boundAddr := some { sun_family := AF_UNIX, sun_path := bindPathFull 3 "data" }
                 , backlog := some 10, accepted := [] }) :=
  listen_unix_socket_builds_fd_qualified_listener 3 "data"
    { sockRes := 4, bindOk := true, listenOk := true } (by decide) (by decide) rfl rfl

/-- Claim C10 (confirmed): only a negative `snprintf` return is treated as
fatal, and the return value (the untruncated length) is never negative; the
`sun_path` the socket is bound to is the first `sunPathSize - 1 = 107`
characters of `"/proc/self/fd/<dirfd>/<name>"`, so an overlong string is
silently truncated and the call still succeeds; the bound path equals the
full descriptor-qualified string exactly when that string fits in the
buffer. -/
theorem snprintf_truncation_is_silent (dirfd : Int) (name : String) (o : SockOracle)
    (hs : 0 ≤ o.sockRes) (hb : o.bindOk = true) (hl : o.listenOk = true) :
    0 ≤ (snprintfSunPath dirfd name).2 ∧
    (snprintfSunPath dirfd name).1 = strTake (bindPathFull dirfd name) (sunPathSize - 1) ∧
    (listen_unix_socket dirfd name o).2 =
      Except.ok { fd := o.sockRes, family := AF_UNIX, sockType := SOCK_STREAM
                , boundAddr :=
                    some { sun_family := AF_UNIX
                         , sun_path := strTake (bindPathFull dirfd name) (sunPathSize - 1) }
                , backlog := some 10, accepted := [] } ∧
    (strTake (bindPathFull dirfd name) (sunPathSize - 1) = bindPathFull dirfd name ↔
      (bindPathFull dirfd name).length ≤ sunPathSize - 1) := by
  refine ⟨by simp [snprintfSunPath], rfl, ?_, strTake_eq_self_iff _ _⟩
  rw [listen_unix_socket_ok dirfd name o hs hb hl]
  simp [snprintfSunPath]

/-- Witness for C10 at `dirfd = 3` and the 100-character name `longName`:
the formatted string is 116 characters, exceeds the buffer, and the socket
is still bound (to the truncated path, which differs from the full
string). -/
theorem snprintf_truncation_is_silent_witness :
    (0 ≤ (snprintfSunPath 3 longName).2 ∧
     (snprintfSunPath 3 longName).1 = strTake (bindPathFull 3 longName) (sunPathSize - 1) ∧
     (listen_unix_socket 3 longName { sockRes := 4, bindOk := true, listenOk := true }).2 =
       Except.ok { fd := 4, family := AF_UNIX, sockType := SOCK_STREAM
                 , boundAddr :=
                     some { sun_family := AF_UNIX
                          , sun_path := strTake (bindPathFull 3 longName) (sunPathSize - 1) }
                 , backlog := some 10, accepted := [] } ∧
     (strTake (bindPathFull 3 longName) (sunPathSize - 1) = bindPathFull 3 longName ↔
       (bindPathFull 3 longName).length ≤ sunPathSize - 1)) ∧
    ¬ (bindPathFull 3 longName).length ≤ sunPathSize - 1 :=
  ⟨snprintf_truncation_is_silent 3 longName
     { sockRes := 4, bindOk := true, listenOk := true } (by decide) rfl rfl,
   by decide⟩

theorem w0_success : Success w0 := by
  unfold Success
  decide

/-- Claim C2 (confirmed): in every successful run the handoff proceeds in
exactly this order: exactly one connection is accepted on the pass socket
(with the close-on-exec flag, and no further accept ever happens, so the
pass socket is not reused); then the pass listening socket is closed and
its filesystem entry removed from the private directory; then the control
message is sent; then the accepted-connection descriptor is closed, the
heap-allocated directory-path string is freed, the data socket descriptor
is closed, the directory handle is closed, and the process exits with
status 0.  The trace has exactly 20 events, so these are its final 8. -/
theorem handoff_order (w : World) (dir : String) (hdir : w.mkdtempRes = some dir)
    (h : Success w) :
    (socket_binder_main w).exitCode = 0 ∧
    ((socket_binder_main w).events.filter isAcceptEv).length = 1 ∧
    (socket_binder_main w).events.get? 12 =
      some (Ev.accept4 w.passO.sockRes [AcceptFlag.SOCK_CLOEXEC] w.acceptRes) ∧
    (socket_binder_main w).events.get? 13 = some (Ev.closeFd w.passO.sockRes true) ∧
    (socket_binder_main w).events.get? 14 = some (Ev.unlinkat w.openRes "pass" 0 true) ∧
    (socket_binder_main w).events.get? 15 =
      some (Ev.sendmsg w.acceptRes (handoffMsg w.dataO.sockRes) true) ∧
    (socket_binder_main w).events.get? 16 = some (Ev.closeFd w.acceptRes true) ∧
    (socket_binder_main w).events.get? 17 = some (Ev.free dir) ∧
    (socket_binder_main w).events.get? 18 = some (Ev.closeFd w.dataO.sockRes true) ∧
    (socket_binder_main w).events.get? 19 = some (Ev.closeFd w.openRes true) ∧
    (socket_binder_main w).events.length = 20 := by
  rw [run_success_trace w dir hdir h]
  exact ⟨rfl, rfl, rfl, rfl, rfl, rfl, rfl, rfl, rfl, rfl, rfl⟩

/-- Witness for C2 at the concrete successful world `w0`. -/
theorem handoff_order_witness :
    (socket_binder_main w0).exitCode = 0 ∧
    ((socket_binder_main w0).events.filter isAcceptEv).length = 1 ∧
    (socket_binder_main w0).events.get? 12 =
      some (Ev.accept4 5 [AcceptFlag.SOCK_CLOEXEC] 6) ∧
    (socket_binder_main w0).events.get? 13 = some (Ev.closeFd 5 true) ∧
    (socket_binder_main w0).events.get? 14 = some (Ev.unlinkat 3 "pass" 0 true) ∧
    (socket_binder_main w0).events.get? 15 = some (Ev.sendmsg 6 (handoffMsg 4) true) ∧
    (socket_binder_main w0).events.get? 16 = some (Ev.closeFd 6 true) ∧
    (socket_binder_main w0).events.get? 17 = some (Ev.free "/tmp/ABC123") ∧
    (socket_binder_main w0).events.get? 18 = some (Ev.closeFd 4 true) ∧
    (socket_binder_main w0).events.get? 19 = some (Ev.closeFd 3 true) ∧
    (socket_binder_main w0).events.length = 20 :=
  handoff_order w0 "/tmp/ABC123" rfl w0_success

/-- Claim C3 (confirmed): in every successful run there is exactly one
`sendmsg` call; it goes over the accepted connection and carries exactly
one byte of ordinary payload (one iovec of length 1, byte 0) and exactly
one ancillary control block, a `SOL_SOCKET`/`SCM_RIGHTS` block holding
exactly one descriptor, the data socket's; and the data socket's
descriptor is the only descriptor the whole trace ever transfers out of
the process. -/
theorem single_descriptor_send (w : World) (dir : String) (hdir : w.mkdtempRes = some dir)
    (h : Success w) :
    (socket_binder_main w).events.filter isSendmsgEv =
      [Ev.sendmsg w.acceptRes (handoffMsg w.dataO.sockRes) true] ∧
    sentFds (socket_binder_main w).events = [w.dataO.sockRes] ∧
    (handoffMsg w.dataO.sockRes).iovLens = [1] ∧
    (handoffMsg w.dataO.sockRes).payload = [0] ∧
    (handoffMsg w.dataO.sockRes).control =
      [{ cmsg_level := SOL_SOCKET, cmsg_type := SCM_RIGHTS, fds := [w.dataO.sockRes] }] := by
  rw [run_success_trace w dir hdir h]
  exact ⟨rfl, rfl, rfl, rfl, rfl⟩

/-- Witness for C3 at the concrete successful world `w0`. -/
theorem single_descriptor_send_witness :
    (socket_binder_main w0).events.filter isSendmsgEv =
      [Ev.sendmsg 6 (handoffMsg 4) true] ∧
    sentFds (socket_binder_main w0).events = [4] ∧
    (handoffMsg 4).iovLens = [1] ∧
    (handoffMsg 4).payload = [0] ∧
    (handoffMsg 4).control =
      [{ cmsg_level := SOL_SOCKET, cmsg_type := SCM_RIGHTS, fds := [4] }] :=
  single_descriptor_send w0 "/tmp/ABC123" rfl w0_success

/-- Claim C4 (confirmed): in every successful run standard output receives
exactly three newline-terminated lines, in order the data path
`<dir>/data`, the pass path `<dir>/pass`, and the sentinel `done`; the
`close(1)` of standard output is the very next event after the `done`
write, and the `accept4` on the pass socket is the event after that, so
standard output is closed immediately after the third line and before the
connection is accepted. -/
theorem announcement_lines (w : World) (dir : String) (hdir : w.mkdtempRes = some dir)
    (h : Success w) :
    stdoutOf (socket_binder_main w).events =
      [dir ++ "/data\n", dir ++ "/pass\n", "done\n"] ∧
    (socket_binder_main w).events.get? 10 = some (Ev.stdout "done\n") ∧
    (socket_binder_main w).events.get? 11 = some (Ev.closeFd 1 true) ∧
    (socket_binder_main w).events.get? 12 =
      some (Ev.accept4 w.passO.sockRes [AcceptFlag.SOCK_CLOEXEC] w.acceptRes) := by
  rw [run_success_trace w dir hdir h]
  exact ⟨rfl, rfl, rfl, rfl⟩

/-- Witness for C4 at the concrete successful world `w0`. -/
theorem announcement_lines_witness :
    stdoutOf (socket_binder_main w0).events =
      ["/tmp/ABC123/data\n", "/tmp/ABC123/pass\n", "done\n"] ∧
    (socket_binder_main w0).events.get? 10 = some (Ev.stdout "done\n") ∧
    (socket_binder_main w0).events.get? 11 = some (Ev.closeFd 1 true) ∧
    (socket_binder_main w0).events.get? 12 =
      some (Ev.accept4 5 [AcceptFlag.SOCK_CLOEXEC] 6) :=
  announcement_lines w0 "/tmp/ABC123" rfl w0_success

/-- Claim C9 (confirmed): in every successful run the only removal call in
the whole trace is the single successful `unlinkat(dirfd, "pass", 0)` (the
program issues no other `unlinkat` and no `unlink`/`rmdir` at all, so the
data entry and the directory are never removed), and at exit the surviving
entries are exactly the directory and `<dir>/data`: the pass path no
longer exists while the data path still does. -/
theorem pass_entry_only_removal (w : World) (dir : String) (hdir : w.mkdtempRes = some dir)
    (h : Success w) :
    (socket_binder_main w).events.filter isUnlinkEv =
      [Ev.unlinkat w.openRes "pass" 0 true] ∧
    (socket_binder_main w).fs = [dir, dir ++ "/data"] ∧
    dir ++ "/pass" ∉ (socket_binder_main w).fs ∧
    dir ++ "/data" ∈ (socket_binder_main w).fs ∧
    dir ∈ (socket_binder_main w).fs := by
  rw [run_success_trace w dir hdir h]
  refine ⟨rfl, rfl, ?_, by simp, by simp⟩
  intro hmem
  rcases List.mem_cons.mp hmem with hcase | hmem2
  · exact dir_ne_pass_entry dir hcase.symm
  · rcases List.mem_cons.mp hmem2 with hcase | hmem3
    · exact data_entry_ne_pass_entry dir hcase.symm
    · simp at hmem3

/-- Witness for C9 at the concrete successful world `w0`. -/
theorem pass_entry_only_removal_witness :
    (socket_binder_main w0).events.filter isUnlinkEv = [Ev.unlinkat 3 "pass" 0 true] ∧
    (socket_binder_main w0).fs = ["/tmp/ABC123", "/tmp/ABC123" ++ "/data"] ∧
    "/tmp/ABC123" ++ "/pass" ∉ (socket_binder_main w0).fs ∧
    "/tmp/ABC123" ++ "/data" ∈ (socket_binder_main w0).fs ∧
    "/tmp/ABC123" ∈ (socket_binder_main w0).fs :=
  pass_entry_only_removal w0 "/tmp/ABC123" rfl w0_success

/-- Counterexample to claim C1 as stated: in the concrete successful run
`w0`, the first announcement line (the data path, trace index 5) is
written to standard output before the pass socket is even created — its
`bind` and `listen` (trace index 8) happen only afterwards.  So it is not
true that the announcement happens only after both sockets are bound and
listening. -/
theorem announcement_line_before_pass_listen :
    (socket_binder_main w0).exitCode = 0 ∧
    (socket_binder_main w0).events.get? 5 = some (Ev.stdout "/tmp/ABC123/data\n") ∧
    (socket_binder_main w0).events.get? 8 = some (Ev.listen 5 10 true) ∧
    Ev.stdout "/tmp/ABC123/data\n" ∈ (socket_binder_main w0).events.take 6 ∧
    Ev.listen 5 10 true ∉ (socket_binder_main w0).events.take 6 ∧
    Ev.bind 5 { sun_family := AF_UNIX, sun_path := "/proc/self/fd/3/pass" } true
      ∉ (socket_binder_main w0).events.take 6 := by
  decide

/-- Claim C1 (amended): in every successful run the `done` sentinel line is
written only after both the data socket's and the pass socket's successful
`listen` calls (the data-path line alone precedes the pass socket's
creation), so a peer that connects to the announced pass path immediately
after observing the `done` line never races a not-yet-listening socket. -/
theorem done_line_after_both_listens (w : World) (dir : String)
    (hdir : w.mkdtempRes = some dir) (h : Success w) (n : Nat)
    (hn : (socket_binder_main w).events.get? n = some (Ev.stdout "done\n")) :
    ∃ j k, j < n ∧ k < n ∧
      (socket_binder_main w).events.get? j = some (Ev.listen w.dataO.sockRes 10 true) ∧
      (socket_binder_main w).events.get? k = some (Ev.listen w.passO.sockRes 10 true) := by
  rw [run_success_trace w dir hdir h] at hn ⊢
  have hlt : n < 20 := by
    have h2 := (List.get?_eq_some.mp hn).1
    simpa [canonEvents] using h2
  interval_cases n <;>
    first
      | exact ⟨4, 8, by omega, by omega, rfl, rfl⟩
      | simp_all [canonEvents, data_line_ne_done dir, pass_line_ne_done dir]

/-- Witness for amended C1 at `w0` and the `done` write at index 10. -/
theorem done_line_after_both_listens_witness :
    ∃ j k, j < 10 ∧ k < 10 ∧
      (socket_binder_main w0).events.get? j = some (Ev.listen 4 10 true) ∧
      (socket_binder_main w0).events.get? k = some (Ev.listen 5 10 true) :=
  done_line_after_both_listens w0 "/tmp/ABC123" rfl w0_success 10 (by decide)

theorem pass_line_ne_data_line (dir : String) : dir ++ "/pass\n" ≠ dir ++ "/data\n" := by
  intro h
  have := string_append_right_cancel h
  simp_all

theorem listen_unix_socket_sock_fail (dirfd : Int) (name : String) (o : SockOracle)
    (hs : o.sockRes < 0) :
    listen_unix_socket dirfd name o =
      ([Ev.socket AF_UNIX SOCK_STREAM o.sockRes], Except.error "socket") := by
  have h1 : ¬ (snprintfSunPath dirfd name).2 < 0 := by simp [snprintfSunPath]
  simp [listen_unix_socket, h1, hs]

theorem listen_unix_socket_bind_fail (dirfd : Int) (name : String) (o : SockOracle)
    (hs : 0 ≤ o.sockRes) (hb : o.bindOk = false) :
    listen_unix_socket dirfd name o =
      ([Ev.socket AF_UNIX SOCK_STREAM o.sockRes,
        Ev.bind o.sockRes
          { sun_family := AF_UNIX, sun_path := (snprintfSunPath dirfd name).1 } false],
       Except.error "bind") := by
  have h1 : ¬ (snprintfSunPath dirfd name).2 < 0 := by simp [snprintfSunPath]
  simp [listen_unix_socket, h1, not_lt.mpr hs, hb]

theorem listen_unix_socket_listen_fail (dirfd : Int) (name : String) (o : SockOracle)
    (hs : 0 ≤ o.sockRes) (hb : o.bindOk = true) (hl : o.listenOk = false) :
    listen_unix_socket dirfd name o =
      ([Ev.socket AF_UNIX SOCK_STREAM o.sockRes,
        Ev.bind o.sockRes
          { sun_family := AF_UNIX, sun_path := (snprintfSunPath dirfd name).1 } true,
        Ev.listen o.sockRes 10 false],
       Except.error "listen") := by
  have h1 : ¬ (snprintfSunPath dirfd name).2 < 0 := by simp [snprintfSunPath]
  simp [listen_unix_socket, h1, not_lt.mpr hs, hb, hl]

/-- Claim C5 (amended): for every run that reaches the binding stage and in
which any socket-creation, bind, or listen step fails (for either socket),
the process terminates with nonzero exit status and the announcement is
never completed: neither the pass-path line nor the `done` sentinel is
printed, and at most one announcement line — the data-path line — may
already have been printed (none at all when the data socket's steps
fail). -/
theorem bind_stage_failure_no_complete_announcement (w : World) (dir : String)
    (hdir : w.mkdtempRes = some dir) (h1 : w.asprintfOk = true) (h2 : 0 ≤ w.openRes)
    (hf : w.dataO.sockRes < 0 ∨ w.dataO.bindOk = false ∨ w.dataO.listenOk = false ∨
          w.passO.sockRes < 0 ∨ w.passO.bindOk = false ∨ w.passO.listenOk = false) :
    (socket_binder_main w).exitCode ≠ 0 ∧
    "done\n" ∉ stdoutOf (socket_binder_main w).events ∧
    dir ++ "/pass\n" ∉ stdoutOf (socket_binder_main w).events ∧
    (stdoutOf (socket_binder_main w).events = [] ∨
     stdoutOf (socket_binder_main w).events = [dir ++ "/data\n"]) := by
  have hopen : ¬ w.openRes < 0 := not_lt.mpr h2
  by_cases hds : w.dataO.sockRes < 0
  · simp [socket_binder_main, make_private_dir, hdir, h1, hopen,
      listen_unix_socket_sock_fail w.openRes "data" w.dataO hds, stdoutOf]
  · have hds2 : 0 ≤ w.dataO.sockRes := not_lt.mp hds
    by_cases hdb : w.dataO.bindOk = false
    · simp [socket_binder_main, make_private_dir, hdir, h1, hopen,
        listen_unix_socket_bind_fail w.openRes "data" w.dataO hds2 hdb, stdoutOf]
    · have hdb2 : w.dataO.bindOk = true := by
        revert hdb; cases w.dataO.bindOk <;> simp
      by_cases hdl : w.dataO.listenOk = false
      · simp [socket_binder_main, make_private_dir, hdir, h1, hopen,
          listen_unix_socket_listen_fail w.openRes "data" w.dataO hds2 hdb2 hdl, stdoutOf]
      · have hdl2 : w.dataO.listenOk = true := by
          revert hdl; cases w.dataO.listenOk <;> simp
        by_cases hps : w.passO.sockRes < 0
        · simp [socket_binder_main, make_private_dir, hdir, h1, hopen,
            listen_unix_socket_ok w.openRes "data" w.dataO hds2 hdb2 hdl2,
            listen_unix_socket_sock_fail w.openRes "pass" w.passO hps, stdoutOf,
            Ne.symm (data_line_ne_done dir), pass_line_ne_data_line dir]
        · have hps2 : 0 ≤ w.passO.sockRes := not_lt.mp hps
          by_cases hpb : w.passO.bindOk = false
          · simp [socket_binder_main, make_private_dir, hdir, h1, hopen,
              listen_unix_socket_ok w.openRes "data" w.dataO hds2 hdb2 hdl2,
              listen_unix_socket_bind_fail w.openRes "pass" w.passO hps2 hpb, stdoutOf,
              Ne.symm (data_line_ne_done dir), pass_line_ne_data_line dir]
          · have hpb2 : w.passO.bindOk = true := by
              revert hpb; cases w.passO.bindOk <;> simp
            by_cases hpl : w.passO.listenOk = false
            · simp [socket_binder_main, make_private_dir, hdir, h1, hopen,
                listen_unix_socket_ok w.openRes "data" w.dataO hds2 hdb2 hdl2,
                listen_unix_socket_listen_fail w.openRes "pass" w.passO hps2 hpb2 hpl, stdoutOf,
                Ne.symm (data_line_ne_done dir), pass_line_ne_data_line dir]
            · rcases hf with hf | hf | hf | hf | hf | hf <;> simp_all

/-- Counterexample to claim C5 as stated: in the run `w5` the pass
socket's `bind` fails, the process exits with status 1 and the `err(3)`
diagnostic names `bind` — but one announcement line (the data path) has
already been printed to standard output, contradicting "no announcement
lines have been printed". -/
theorem pass_bind_failure_still_prints_data_line :
    (socket_binder_main w5).exitCode = 1 ∧
    (socket_binder_main w5).stderrLine = some "bind" ∧
    Ev.bind 5 { sun_family := AF_UNIX, sun_path := "/proc/self/fd/3/pass" } false
      ∈ (socket_binder_main w5).events ∧
    stdoutOf (socket_binder_main w5).events = ["/tmp/ABC123/data\n"] := by
  decide

/-- Witness for amended C5 at the run `w5`, whose pass-socket `bind`
fails. -/
theorem bind_stage_failure_no_complete_announcement_witness :
    (socket_binder_main w5).exitCode ≠ 0 ∧
    "done\n" ∉ stdoutOf (socket_binder_main w5).events ∧
    "/tmp/ABC123" ++ "/pass\n" ∉ stdoutOf (socket_binder_main w5).events ∧
    (stdoutOf (socket_binder_main w5).events = [] ∨
     stdoutOf (socket_binder_main w5).events = ["/tmp/ABC123" ++ "/data\n"]) :=
  bind_stage_failure_no_complete_announcement w5 "/tmp/ABC123" rfl rfl (by decide)
    (Or.inr (Or.inr (Or.inr (Or.inr (Or.inl rfl)))))

/-- Claim C6 (code slip): in the run `w6` every call succeeds except the
final `close(datasock)`; the process exits 1 and the failed call — the
last event — is the close of the data socket (descriptor 4), while the
accepted connection is descriptor 6 and its close already succeeded; yet
the diagnostic written to standard error is the copy-pasted string
`"close(connsock)"`, which names the wrong operation.  (The same slip
guards `close(dirfd)`.) -/
theorem close_data_failure_misnamed_diagnostic :
    (socket_binder_main w6).exitCode = 1 ∧
    (socket_binder_main w6).stderrLine = some "close(connsock)" ∧
    (socket_binder_main w6).events.getLast? = some (Ev.closeFd 4 false) ∧
    Ev.closeFd 6 true ∈ (socket_binder_main w6).events ∧
    (socket_binder_main w6).events.get? 12 =
      some (Ev.accept4 5 [AcceptFlag.SOCK_CLOEXEC] 6) ∧
    (4 : Int) ≠ 6 := by
  decide

/-- Counterexample to claim C7 as stated: the flag set the program passes
when opening the directory handle contains no symlink-disallowing flag
(`O_NOFOLLOW`), so the open mode does not disallow following symlinks. -/
theorem no_nofollow_in_dir_open_flags :
    ¬ (OpenFlag.O_NOFOLLOW ∈ dirOpenFlags ∧ OpenFlag.O_CLOEXEC ∈ dirOpenFlags) := by
  decide

/-- Claim C7 (amended): every `open` call in a successful run uses exactly
the flags `O_DIRECTORY|O_CLOEXEC`: the handle must refer to a directory
and is not inherited across process-replacement (exec) boundaries, but no
`O_NOFOLLOW` flag is passed, so the mode itself does not disallow
following symlinks. -/
theorem dir_handle_open_flags (w : World) (dir : String)
    (hdir : w.mkdtempRes = some dir) (h : Success w)
    (e : String) (fl : List OpenFlag) (r : Int)
    (hmem : Ev.openat e fl r ∈ (socket_binder_main w).events) :
    fl = dirOpenFlags ∧ OpenFlag.O_DIRECTORY ∈ fl ∧ OpenFlag.O_CLOEXEC ∈ fl ∧
    OpenFlag.O_NOFOLLOW ∉ fl := by
  rw [run_success_trace w dir hdir h] at hmem
  simp only [canonEvents, List.mem_cons] at hmem
  rcases hmem with hc | hc | hc | hc | hc | hc | hc | hc | hc | hc |
    hc | hc | hc | hc | hc | hc | hc | hc | hc | hc | hc <;>
    first
      | (cases hc; exact ⟨rfl, by decide, by decide, by decide⟩)
      | simp_all

/-- Witness for amended C7: the `open` event of the concrete successful
run `w0`. -/
theorem dir_handle_open_flags_witness :
    dirOpenFlags = dirOpenFlags ∧ OpenFlag.O_DIRECTORY ∈ dirOpenFlags ∧
    OpenFlag.O_CLOEXEC ∈ dirOpenFlags ∧ OpenFlag.O_NOFOLLOW ∉ dirOpenFlags :=
  dir_handle_open_flags w0 "/tmp/ABC123" rfl w0_success "/tmp/ABC123" dirOpenFlags 3
    (by decide)
